import Mathlib

/-!
Shallow embedding of the evse-bricklet control core
(src/software/src/iec61851.c, src/software/src/evse.c,
src/software/src/charging_slot.c) and proofs about the frozen claims.

Machine integers are modelled as `Nat`; the C code never relies on u32
overflow in the embedded fragment (currents stay below 2^32, timestamps
come from a monotonic millisecond clock), except for the u16 accumulator
in `charging_slot_get_max_current`, where the truncating assignment is
modelled explicitly with `% 65536`.
-/

/-! ### Constants (iec61851.c lines 50-62) -/

def IEC61851_CP_RESISTANCE_STATE_A : Nat := 10000
def IEC61851_CP_RESISTANCE_STATE_B : Nat := 1790
def IEC61851_CP_RESISTANCE_STATE_C : Nat := 300
def IEC61851_CP_RESISTANCE_STATE_D : Nat := 150

/-- BETWEEN macro from bricklib2 util_definitions.h: clamp value into
[lo, hi] (MIN/MAX are the usual conditional macros, i.e. `min`/`max`). -/
def BETWEEN (lo v hi : Nat) : Nat := min (max v lo) hi

/-- Modelled from the spec: `system_timer_is_time_elapsed_ms` lives in the
bricklib2 support library, not under src/. Spec section 5: timeouts "are
all implemented as 'elapsed since recorded timestamp' checks against a
monotonic millisecond clock". -/
def system_timer_is_time_elapsed_ms (start duration now : Nat) : Bool :=
  start + duration ≤ now

/-! ### Data model -/

/-- IEC 61851 charging states (IEC61851State in iec61851.h). -/
inductive IecState where
  | A | B | C | D | EF
deriving DecidableEq, Repr

/-- Jumper configuration values (EVSE_CONFIG_JUMPER_* in config_evse.h).
The `unconfigured` constructor also stands for the `default:` case of the
C switch statements. -/
inductive JumperConfig where
  | current6A | current10A | current13A | current16A
  | current20A | current25A | current32A
  | software | unconfigured
deriving DecidableEq, Repr

/-- Inputs that the embedded fragment only reads during one call / tick:
the clock, the ADC resistances, the fault input, the configuration and
the raw button state. -/
structure Env where
  now : Nat
  cp_pe_resistance : Nat
  pp_pe_resistance : Nat
  contactor_check_error : Nat
  calibration_state : Nat
  config_jumper_current : JumperConfig
  config_jumper_current_software : Nat
  max_current_configured : Nat
  managed : Bool
  charging_autostart : Bool
  button_pressed : Bool
deriving DecidableEq, Repr

/-- Mutable state touched by the embedded fragment: the iec61851 struct,
the relevant evse fields, the button latch, the relay pin, the CP PWM
compare register and the invalid-measurement counters. -/
structure Sys where
  iec_state : IecState
  last_state_change : Nat
  id3_mode_time : Nat
  charging_time : Nat
  was_pressed : Bool
  max_managed_current : Nat
  contactor_turn_off_time : Nat
  relay : Bool
  pwm_raw : Nat
  cp_invalid_counter : Nat
  pp_invalid_counter : Nat
  contactor_check_invalid : Nat
deriving DecidableEq, Repr

/-! ### evse.c -/

/-- evse.c lines 408-412: decode the CCU4 compare register back into a
duty cycle in permille. All writes to the register go through
`evse_set_cp_duty_cycle` with a duty cycle of at most 1000, so
`pwm_raw ≤ 64000` holds in every reachable state and `Nat` subtraction
agrees with the C arithmetic. -/
def evse_get_cp_duty_cycle (s : Sys) : Nat :=
  (64000 - s.pwm_raw) / 64

/-- evse.c lines 414-431. -/
def evse_set_cp_duty_cycle (s : Sys) (duty_cycle : Nat) : Sys :=
  let contactor_active := s.relay
  let use_16a := !contactor_active && (duty_cycle != 0) && (duty_cycle != 1000)
  let duty := if use_16a then 266 else duty_cycle
  let current_cp_duty_cycle := evse_get_cp_duty_cycle s
  let new_cp_duty_cycle := 64000 - duty * 64
  if current_cp_duty_cycle ≠ duty then
    { s with cp_invalid_counter := max 2 s.cp_invalid_counter,
             pwm_raw := new_cp_duty_cycle }
  else
    s

/-- evse.c lines 92-105: raise the invalid counters and write the relay
pin (the common tail of `evse_set_output` once a switch is performed). -/
def evse_switch_contactor (s : Sys) (contactor : Bool) : Sys :=
  { s with cp_invalid_counter := max 4 s.cp_invalid_counter,
           pp_invalid_counter := max 4 s.pp_invalid_counter,
           contactor_check_invalid := max 5 s.contactor_check_invalid,
           relay := contactor }

/-- evse.c lines 45-115 (the `#if 0` lock blocks are dead code). Early
`return` statements of the C function become returning the state reached
so far. -/
def evse_set_output (env : Env) (s : Sys) (cp_duty_cycle : Nat) (contactor : Bool) : Sys :=
  let s1 := evse_set_cp_duty_cycle s cp_duty_cycle
  if s1.relay ≠ contactor then
    if ((cp_duty_cycle = 0 ∨ cp_duty_cycle = 1000) ∧ contactor = false) then
      if env.cp_pe_resistance ≤ IEC61851_CP_RESISTANCE_STATE_B then
        if s1.contactor_turn_off_time = 0 then
          { s1 with contactor_turn_off_time := env.now }
        else if system_timer_is_time_elapsed_ms s1.contactor_turn_off_time 3000 env.now then
          evse_switch_contactor { s1 with contactor_turn_off_time := 0 } contactor
        else
          s1
      else
        evse_switch_contactor { s1 with contactor_turn_off_time := 0 } contactor
    else
      evse_switch_contactor s1 contactor
  else
    s1

/-! ### iec61851.c -/

/-- iec61851.c lines 102-112. -/
def iec61851_get_ma_from_pp_resistance (pp_pe_resistance : Nat) : Nat :=
  if pp_pe_resistance ≥ 1000 then 13000
  else if pp_pe_resistance ≥ 330 then 20000
  else if pp_pe_resistance ≥ 150 then 32000
  else 64000

/-- iec61851.c lines 114-126. -/
def iec61851_get_ma_from_jumper (env : Env) : Nat :=
  match env.config_jumper_current with
  | JumperConfig.current6A => 6000
  | JumperConfig.current10A => 10000
  | JumperConfig.current13A => 13000
  | JumperConfig.current16A => 16000
  | JumperConfig.current20A => 20000
  | JumperConfig.current25A => 25000
  | JumperConfig.current32A => 32000
  | JumperConfig.software => env.config_jumper_current_software
  | JumperConfig.unconfigured => 6000

/-- iec61851.c lines 128-135. -/
def iec61851_get_max_ma (env : Env) (s : Sys) : Nat :=
  let max_conf_pp_jumper :=
    min env.max_current_configured
      (min (iec61851_get_ma_from_pp_resistance env.pp_pe_resistance)
           (iec61851_get_ma_from_jumper env))
  if env.managed then min max_conf_pp_jumper s.max_managed_current
  else max_conf_pp_jumper

/-- iec61851.c lines 138-157. -/
def iec61851_get_duty_cycle_for_ma (ma : Nat) : Nat :=
  if ma = 0 then 1000
  else
    let duty_cycle := if ma ≤ 51000 then ma / 60 else ma / 250 + 640
    BETWEEN 80 duty_cycle 1000

/-- iec61851.c lines 67-97 (LED calls omitted: the LED is the external
status sink). The `iec61851.state != IEC61851_STATE_A` test reads the
state before it is overwritten, hence the ordering below. -/
def iec61851_set_state (env : Env) (s : Sys) (state : IecState) : Sys :=
  if state = s.iec_state then s
  else
    let s1 :=
      if state = IecState.C ∧ s.charging_time = 0 then
        { s with charging_time := env.now }
      else s
    let s2 :=
      if s1.iec_state ≠ IecState.A ∧ state = IecState.A then
        let sa := if !env.charging_autostart then { s1 with was_pressed := true } else s1
        if env.managed then { sa with max_managed_current := 0 } else sa
      else s1
    { s2 with iec_state := state, last_state_change := env.now }

/-- Modelled from the spec: `button_reset` lives in button.c, which is
not under src/. Spec section 6 describes the manual control input as "a
one-shot 'was pressed since last A state' latch"; the reset clears the
latch once the button is no longer held. Its return value only gates an
LED call in iec61851_state_a, so it is not modelled. -/
def button_reset (env : Env) (s : Sys) : Sys :=
  if s.was_pressed && !env.button_pressed then { s with was_pressed := false } else s

/-- iec61851.c lines 159-170 (LED call omitted). -/
def iec61851_state_a (env : Env) (s : Sys) : Sys :=
  let s1 := evse_set_output env s 1000 false
  if IEC61851_CP_RESISTANCE_STATE_A < env.cp_pe_resistance then button_reset env s1
  else s1

/-- iec61851.c lines 172-176. -/
def iec61851_state_b (env : Env) (s : Sys) : Sys :=
  let ma := iec61851_get_max_ma env s
  evse_set_output env s (iec61851_get_duty_cycle_for_ma ma) false

/-- iec61851.c lines 178-183 (LED call omitted). -/
def iec61851_state_c (env : Env) (s : Sys) : Sys :=
  let ma := iec61851_get_max_ma env s
  evse_set_output env s (iec61851_get_duty_cycle_for_ma ma) true

/-- iec61851.c line 230: ID.3 mode is "duty cycle below 100% and the
contactor (relay pin) not engaged". -/
def id3_mode (s : Sys) : Bool :=
  (evse_get_cp_duty_cycle s != 1000) && !s.relay

/-- iec61851.c lines 231-233: outside ID.3 mode the debounce timestamp
is cleared before the classification chain runs; all later reads of the
iec61851 struct in the chain see this update. -/
def iec61851_id3_reset (s : Sys) : Sys :=
  if id3_mode s then s else { s with id3_mode_time := 0 }

/-- iec61851.c lines 201-261: the classification part of the tick.
`none` models the early `return` when the CP invalid counter is nonzero
(the bottom actuation switch is skipped); every other branch falls
through to the actuation switch with the returned state. -/
def iec61851_tick_classify (env : Env) (s : Sys) : Option Sys :=
  if env.contactor_check_error ≠ 0 then
    some (iec61851_set_state env s IecState.EF)
  else if env.config_jumper_current = JumperConfig.unconfigured then
    some (iec61851_set_state env s IecState.EF)
  else if s.was_pressed then
    some (iec61851_set_state env s IecState.A)
  else if 0 < s.cp_invalid_counter then
    none
  else if id3_mode s ∧ IEC61851_CP_RESISTANCE_STATE_A * 3 < env.cp_pe_resistance then
    (if (iec61851_id3_reset s).id3_mode_time = 0 then
      some { iec61851_id3_reset s with id3_mode_time := env.now }
    else if system_timer_is_time_elapsed_ms (iec61851_id3_reset s).id3_mode_time 500 env.now then
      some (iec61851_set_state env (iec61851_id3_reset s) IecState.A)
    else
      some (iec61851_id3_reset s))
  else if ¬ id3_mode s ∧ IEC61851_CP_RESISTANCE_STATE_A < env.cp_pe_resistance then
    some (iec61851_set_state env (iec61851_id3_reset s) IecState.A)
  else if IEC61851_CP_RESISTANCE_STATE_B < env.cp_pe_resistance then
    some (iec61851_set_state env (iec61851_id3_reset s) IecState.B)
  else if IEC61851_CP_RESISTANCE_STATE_C < env.cp_pe_resistance then
    (if env.managed ∧ (iec61851_id3_reset s).max_managed_current = 0 then
      some (iec61851_set_state env (iec61851_id3_reset s) IecState.B)
    else
      some (iec61851_set_state env (iec61851_id3_reset s) IecState.C))
  else if IEC61851_CP_RESISTANCE_STATE_D < env.cp_pe_resistance then
    some (iec61851_set_state env (iec61851_id3_reset s) IecState.D)
  else
    some (iec61851_set_state env (iec61851_id3_reset s) IecState.EF)

/-- iec61851.c lines 263-269: the per-state actuation switch. -/
def iec61851_actuate (env : Env) (s : Sys) : Sys :=
  match s.iec_state with
  | IecState.A => iec61851_state_a env s
  | IecState.B => iec61851_state_b env s
  | IecState.C => iec61851_state_c env s
  | IecState.D => evse_set_output env s 1000 false
  | IecState.EF => evse_set_output env s 1000 false

/-- iec61851.c lines 196-270. -/
def iec61851_tick (env : Env) (s : Sys) : Sys :=
  if env.calibration_state ≠ 0 then s
  else
    match iec61851_tick_classify env s with
    | none => s
    | some s1 => iec61851_actuate env s1

/-! ### charging_slot.c -/

def CHARGING_SLOT_INCOMING_CABLE : Nat := 0
def CHARGING_SLOT_OUTGOING_CABLE : Nat := 1

/-- Two fixed physical slots plus the 18 persisted logical slots
(evse.c handles 18 slot defaults, stored at index + 2). -/
def CHARGING_SLOT_NUM : Nat := 20

/-- The three arrays of the ChargingSlot struct, indexed by slot number.
Per spec section 3 a slot's `max_current_mA` is a u32. -/
structure SlotTable where
  max_current : Nat → Nat
  active : Nat → Bool
  clear_on_disconnect : Nat → Bool

/-- charging_slot.c lines 35-47. -/
def charging_slot_get_ma_incoming_cable (env : Env) : Nat :=
  match env.config_jumper_current with
  | JumperConfig.current6A => 6000
  | JumperConfig.current10A => 10000
  | JumperConfig.current13A => 13000
  | JumperConfig.current16A => 16000
  | JumperConfig.current20A => 20000
  | JumperConfig.current25A => 25000
  | JumperConfig.current32A => 32000
  | JumperConfig.software => env.config_jumper_current_software
  | JumperConfig.unconfigured => 6000

/-- charging_slot.c lines 49-65; only indices 0 .. 19 are written. -/
def charging_slot_init (env : Env)
    (defaults_max : Nat → Nat) (defaults_active defaults_clear : Nat → Bool)
    (t : SlotTable) : SlotTable :=
  { max_current := fun i =>
      if i = CHARGING_SLOT_INCOMING_CABLE then charging_slot_get_ma_incoming_cable env
      else if i = CHARGING_SLOT_OUTGOING_CABLE then
        iec61851_get_ma_from_pp_resistance env.pp_pe_resistance
      else if i < CHARGING_SLOT_NUM then defaults_max (i - 2)
      else t.max_current i,
    active := fun i =>
      if i = CHARGING_SLOT_INCOMING_CABLE then true
      else if i = CHARGING_SLOT_OUTGOING_CABLE then true
      else if i < CHARGING_SLOT_NUM then defaults_active (i - 2)
      else t.active i,
    clear_on_disconnect := fun i =>
      if i = CHARGING_SLOT_INCOMING_CABLE then false
      else if i = CHARGING_SLOT_OUTGOING_CABLE then false
      else if i < CHARGING_SLOT_NUM then defaults_clear (i - 2)
      else t.clear_on_disconnect i }

/-- charging_slot.c lines 67-69. -/
def charging_slot_tick (env : Env) (t : SlotTable) : SlotTable :=
  { t with max_current := fun i =>
      if i = CHARGING_SLOT_OUTGOING_CABLE then
        iec61851_get_ma_from_pp_resistance env.pp_pe_resistance
      else t.max_current i }

/-- Loop body of charging_slot.c lines 74-78: the accumulator is a
uint16_t; `max_current = MIN(max_current, charging_slot.max_current[i])`
computes the minimum in uint32_t (usual arithmetic conversions) and the
assignment narrows it back to uint16_t, modelled by `% 65536`. -/
def charging_slot_fold_step (t : SlotTable) (acc i : Nat) : Nat :=
  if t.active i then (min acc (t.max_current i)) % 65536 else acc

/-- charging_slot.c lines 71-85: the accumulator starts at 0xFFFF, and
the 0xFFFF sentinel ("no active slot constrained the value") maps to 0. -/
def charging_slot_get_max_current (t : SlotTable) : Nat :=
  let m := (List.range CHARGING_SLOT_NUM).foldl (charging_slot_fold_step t) 65535
  if m = 65535 then 0 else m

/-! ### Concrete inputs used by witnesses and counterexamples -/

/-- Baseline environment: healthy hardware, 32 A jumper, 32 A configured
maximum, unmanaged, autostart on. -/
def envBase : Env :=
  { now := 0, cp_pe_resistance := 0, pp_pe_resistance := 0,
    contactor_check_error := 0, calibration_state := 0,
    config_jumper_current := JumperConfig.current32A,
    config_jumper_current_software := 6000,
    max_current_configured := 32000, managed := false,
    charging_autostart := true, button_pressed := false }

/-- Baseline state: state A, idle pilot (compare register 0 decodes to
1000 permille), relay off, no pending timers, counters drained. -/
def sysBase : Sys :=
  { iec_state := IecState.A, last_state_change := 0, id3_mode_time := 0,
    charging_time := 0, was_pressed := false, max_managed_current := 0,
    contactor_turn_off_time := 0, relay := false, pwm_raw := 0,
    cp_invalid_counter := 0, pp_invalid_counter := 0,
    contactor_check_invalid := 0 }

/-- One active slot whose current is the 0xFFFF sentinel value. -/
def slot_table_cex : SlotTable :=
  { max_current := fun i => if i = 0 then 65535 else 0,
    active := fun i => i == 0,
    clear_on_disconnect := fun _ => false }

/-- Two active slots (32 A and 16 A) among the twenty. -/
def slot_table_wit : SlotTable :=
  { max_current := fun i => if i = 2 then 32000 else if i = 5 then 16000 else 0,
    active := fun i => i == 2 || i == 5,
    clear_on_disconnect := fun _ => false }

/-- Environment for the charging-slot-tick counterexample: 6 A jumper,
PP resistance 500 ohm (a 20 A cable). -/
def env_c6 : Env :=
  { envBase with config_jumper_current := JumperConfig.current6A,
                 pp_pe_resistance := 500 }

/-- A slot table whose incoming-cable entry is stale (0 mA). -/
def slot_table_c6 : SlotTable :=
  { max_current := fun _ => 0,
    active := fun _ => true,
    clear_on_disconnect := fun _ => false }

/-- Contactor-check fault present, measurements still blacked out. -/
def env_c4 : Env := { envBase with contactor_check_error := 1, now := 5 }

/-- State B with one blacked-out CP sample and a 333-permille pilot. -/
def sys_c4 : Sys := { sysBase with iec_state := IecState.B,
                                   cp_invalid_counter := 1, pwm_raw := 42688 }

/-- Healthy environment for the invalid-counter-guard witness. -/
def sys_c4w : Sys := { sysBase with cp_invalid_counter := 1 }

/-- ID.3-mode spike environment: CP resistance 31000 ohm at t = 700 ms. -/
def env_c5w : Env := { envBase with now := 700, cp_pe_resistance := 31000 }

/-- ID.3-mode state: 266-permille pilot (compare register 46976), relay
off, spike first observed at t = 100 ms. -/
def sys_c5w : Sys := { sysBase with pwm_raw := 46976, id3_mode_time := 100 }

/-- ID.3-mode environment with CP resistance 20000 ohm (between the A
threshold and three times the A threshold). -/
def env_c10w : Env := { envBase with cp_pe_resistance := 20000 }

/-- ID.3-mode state: 266-permille pilot, relay off. -/
def sys_c10w : Sys := { sysBase with pwm_raw := 46976 }

/-- Deferral witness environment: CP resistance 2000 ohm at t = 5000. -/
def env_c1w : Env := { envBase with now := 5000, cp_pe_resistance := 2000 }

/-- Relay engaged, no deferral pending. -/
def sys_c1w : Sys := { sysBase with relay := true }

/-- Relay off, idle pilot: the reduced-duty clamp applies. -/
def sys_c7w : Sys := sysBase

/-- End-to-end scenario 1 environment: CP 2000 ohm (state B band), PP
500 ohm (20 A cable), 32 A jumper, 32 A configured, unmanaged. -/
def env_c9 : Env := { envBase with cp_pe_resistance := 2000, pp_pe_resistance := 500 }

/-- End-to-end scenario 1 initial state. -/
def sys_c9 : Sys := sysBase

/-- End-to-end scenario 1 slot table: incoming 32000, outgoing 20000,
button 32000, all active; remaining slots inactive. -/
def slot_table_c9 : SlotTable :=
  { max_current := fun i => if i = 0 then 32000 else if i = 1 then 20000
                            else if i = 2 then 32000 else 0,
    active := fun i => i ≤ 2,
    clear_on_disconnect := fun _ => false }

/-! ### Helper lemmas -/

lemma duty_cycle_for_ma_bounds (ma : Nat) (h : ma ≠ 0) :
    80 ≤ iec61851_get_duty_cycle_for_ma ma ∧ iec61851_get_duty_cycle_for_ma ma ≤ 1000 := by
  simp only [iec61851_get_duty_cycle_for_ma, BETWEEN, if_neg h]
  constructor <;> omega

lemma cpduty_relay (s : Sys) (d : Nat) :
    (evse_set_cp_duty_cycle s d).relay = s.relay := by
  simp only [evse_set_cp_duty_cycle]
  repeat' split
  all_goals rfl

lemma cpduty_turn_off (s : Sys) (d : Nat) :
    (evse_set_cp_duty_cycle s d).contactor_turn_off_time = s.contactor_turn_off_time := by
  simp only [evse_set_cp_duty_cycle]
  repeat' split
  all_goals rfl

lemma cpduty_iec_state (s : Sys) (d : Nat) :
    (evse_set_cp_duty_cycle s d).iec_state = s.iec_state := by
  simp only [evse_set_cp_duty_cycle]
  repeat' split
  all_goals rfl

lemma cpduty_id3_time (s : Sys) (d : Nat) :
    (evse_set_cp_duty_cycle s d).id3_mode_time = s.id3_mode_time := by
  simp only [evse_set_cp_duty_cycle]
  repeat' split
  all_goals rfl

lemma set_output_iec_state (env : Env) (s : Sys) (d : Nat) (c : Bool) :
    (evse_set_output env s d c).iec_state = s.iec_state := by
  simp only [evse_set_output, evse_switch_contactor]
  repeat' split
  all_goals simp [cpduty_iec_state]

lemma set_output_id3_time (env : Env) (s : Sys) (d : Nat) (c : Bool) :
    (evse_set_output env s d c).id3_mode_time = s.id3_mode_time := by
  simp only [evse_set_output, evse_switch_contactor]
  repeat' split
  all_goals simp [cpduty_id3_time]

lemma button_reset_iec_state (env : Env) (s : Sys) :
    (button_reset env s).iec_state = s.iec_state := by
  simp only [button_reset]
  split
  · rfl
  · rfl

lemma button_reset_id3_time (env : Env) (s : Sys) :
    (button_reset env s).id3_mode_time = s.id3_mode_time := by
  simp only [button_reset]
  split
  · rfl
  · rfl

lemma set_state_iec_state (env : Env) (s : Sys) (st : IecState) :
    (iec61851_set_state env s st).iec_state = st := by
  simp only [iec61851_set_state]
  split
  · next h => exact h.symm
  · rfl

lemma state_a_iec_state (env : Env) (s : Sys) :
    (iec61851_state_a env s).iec_state = s.iec_state := by
  simp only [iec61851_state_a]
  split
  · rw [button_reset_iec_state, set_output_iec_state]
  · rw [set_output_iec_state]

lemma state_b_iec_state (env : Env) (s : Sys) :
    (iec61851_state_b env s).iec_state = s.iec_state := by
  simp only [iec61851_state_b]
  rw [set_output_iec_state]

lemma state_c_iec_state (env : Env) (s : Sys) :
    (iec61851_state_c env s).iec_state = s.iec_state := by
  simp only [iec61851_state_c]
  rw [set_output_iec_state]

lemma state_a_id3_time (env : Env) (s : Sys) :
    (iec61851_state_a env s).id3_mode_time = s.id3_mode_time := by
  simp only [iec61851_state_a]
  split
  · rw [button_reset_id3_time, set_output_id3_time]
  · rw [set_output_id3_time]

lemma state_b_id3_time (env : Env) (s : Sys) :
    (iec61851_state_b env s).id3_mode_time = s.id3_mode_time := by
  simp only [iec61851_state_b]
  rw [set_output_id3_time]

lemma state_c_id3_time (env : Env) (s : Sys) :
    (iec61851_state_c env s).id3_mode_time = s.id3_mode_time := by
  simp only [iec61851_state_c]
  rw [set_output_id3_time]

lemma actuate_iec_state (env : Env) (s : Sys) :
    (iec61851_actuate env s).iec_state = s.iec_state := by
  unfold iec61851_actuate
  cases h : s.iec_state
  case A =>
    show (iec61851_state_a env s).iec_state = IecState.A
    rw [state_a_iec_state]; exact h
  case B =>
    show (iec61851_state_b env s).iec_state = IecState.B
    rw [state_b_iec_state]; exact h
  case C =>
    show (iec61851_state_c env s).iec_state = IecState.C
    rw [state_c_iec_state]; exact h
  case D =>
    show (evse_set_output env s 1000 false).iec_state = IecState.D
    rw [set_output_iec_state]; exact h
  case EF =>
    show (evse_set_output env s 1000 false).iec_state = IecState.EF
    rw [set_output_iec_state]; exact h

lemma actuate_id3_time (env : Env) (s : Sys) :
    (iec61851_actuate env s).id3_mode_time = s.id3_mode_time := by
  unfold iec61851_actuate
  cases h : s.iec_state
  case A =>
    show (iec61851_state_a env s).id3_mode_time = s.id3_mode_time
    rw [state_a_id3_time]
  case B =>
    show (iec61851_state_b env s).id3_mode_time = s.id3_mode_time
    rw [state_b_id3_time]
  case C =>
    show (iec61851_state_c env s).id3_mode_time = s.id3_mode_time
    rw [state_c_id3_time]
  case D =>
    show (evse_set_output env s 1000 false).id3_mode_time = s.id3_mode_time
    rw [set_output_id3_time]
  case EF =>
    show (evse_set_output env s 1000 false).id3_mode_time = s.id3_mode_time
    rw [set_output_id3_time]

lemma id3_reset_of_true (s : Sys) (h : id3_mode s = true) :
    iec61851_id3_reset s = s := by
  simp [iec61851_id3_reset, h]

lemma tick_of_classify_some (env : Env) (s s1 : Sys)
    (hcal : env.calibration_state = 0)
    (h : iec61851_tick_classify env s = some s1) :
    iec61851_tick env s = iec61851_actuate env s1 := by
  unfold iec61851_tick
  rw [if_neg (by simp [hcal]), h]

lemma tick_of_classify_none (env : Env) (s : Sys)
    (h : iec61851_tick_classify env s = none) :
    iec61851_tick env s = s := by
  unfold iec61851_tick
  split
  · rfl
  · rw [h]

/-! ### C3: duty-cycle encoding shape -/

/-- C3: the duty-cycle encoding maps 0 to 1000 permille; a nonzero
current up to 51000 mA to `ma / 60` clamped into [80, 1000]; a current
above 51000 mA to `ma / 250 + 640` clamped into [80, 1000]; and every
nonzero current to a value in [80, 1000]. -/
theorem C3_duty_cycle_encoding (ma : Nat) :
    (ma = 0 → iec61851_get_duty_cycle_for_ma ma = 1000) ∧
    (0 < ma → ma ≤ 51000 →
      iec61851_get_duty_cycle_for_ma ma = min (max (ma / 60) 80) 1000) ∧
    (51000 < ma →
      iec61851_get_duty_cycle_for_ma ma = min (max (ma / 250 + 640) 80) 1000) ∧
    (ma ≠ 0 →
      80 ≤ iec61851_get_duty_cycle_for_ma ma ∧ iec61851_get_duty_cycle_for_ma ma ≤ 1000) := by
  refine ⟨fun h => by simp [iec61851_get_duty_cycle_for_ma, h],
          fun h1 h2 => ?_, fun h => ?_, duty_cycle_for_ma_bounds ma⟩
  · have h0 : ma ≠ 0 := by omega
    simp [iec61851_get_duty_cycle_for_ma, BETWEEN, h0, h2]
  · have h0 : ma ≠ 0 := by omega
    simp [iec61851_get_duty_cycle_for_ma, BETWEEN, h0, Nat.not_le.mpr h]

/-- Witness for C3 at ma = 6000. -/
theorem C3_duty_cycle_encoding_witness :
    iec61851_get_duty_cycle_for_ma 6000 = min (max (6000 / 60) 80) 1000 ∧
    80 ≤ iec61851_get_duty_cycle_for_ma 6000 :=
  ⟨(C3_duty_cycle_encoding 6000).2.1 (by norm_num) (by norm_num),
   ((C3_duty_cycle_encoding 6000).2.2.2 (by norm_num)).1⟩

/-! ### C8: duty-cycle boundary values -/

/-- C8 counterexample: the encoding maps 80000 mA to 960 permille
(`80000 / 250 + 640`), not to a capped 1000 as the claim states. -/
theorem C8_counterexample :
    iec61851_get_duty_cycle_for_ma 80000 = 960 ∧ (960 : Nat) ≠ 1000 := by
  decide

/-- C8 amended: boundary values of the encoding, with encode(80000) =
960 (the uncapped two-range formula value); all outputs for nonzero
input lie in [80, 1000]. -/
theorem C8_boundary_values :
    iec61851_get_duty_cycle_for_ma 0 = 1000 ∧
    iec61851_get_duty_cycle_for_ma 6000 = 100 ∧
    iec61851_get_duty_cycle_for_ma 51000 = 850 ∧
    iec61851_get_duty_cycle_for_ma 51001 = 844 ∧
    iec61851_get_duty_cycle_for_ma 80000 = 960 ∧
    ∀ ma : Nat, ma ≠ 0 →
      80 ≤ iec61851_get_duty_cycle_for_ma ma ∧ iec61851_get_duty_cycle_for_ma ma ≤ 1000 :=
  ⟨by decide, by decide, by decide, by decide, by decide,
   fun ma h => duty_cycle_for_ma_bounds ma h⟩

/-- Witness for C8 at ma = 7. -/
theorem C8_boundary_values_witness :
    (7 : Nat) ≠ 0 ∧
    (80 ≤ iec61851_get_duty_cycle_for_ma 7 ∧ iec61851_get_duty_cycle_for_ma 7 ≤ 1000) :=
  ⟨by decide, C8_boundary_values.2.2.2.2.2 7 (by decide)⟩

/-! ### C7: reduced duty cycle while the contactor is open -/

/-- C7: when the relay is off and the requested duty cycle is neither 0
nor 1000 permille, `evse_set_cp_duty_cycle` programs the fixed reduced
value 266 permille into the PWM; when the relay is on, or the request is
0 or 1000, the requested value is programmed. -/
theorem C7_cp_duty_clamp (s : Sys) (duty : Nat) (hd : duty ≤ 1000) :
    (s.relay = false → duty ≠ 0 → duty ≠ 1000 →
      evse_get_cp_duty_cycle (evse_set_cp_duty_cycle s duty) = 266) ∧
    ((s.relay = true ∨ duty = 0 ∨ duty = 1000) →
      evse_get_cp_duty_cycle (evse_set_cp_duty_cycle s duty) = duty) := by
  constructor
  · intro hr h0 h1
    have huse : (!s.relay && (duty != 0) && (duty != 1000)) = true := by
      simp [hr, h0, h1]
    simp only [evse_set_cp_duty_cycle, huse, if_true]
    split
    · norm_num [evse_get_cp_duty_cycle]
    · next h => omega
  · intro h
    have huse : (!s.relay && (duty != 0) && (duty != 1000)) = false := by
      rcases h with h | h | h <;> simp [h]
    simp only [evse_set_cp_duty_cycle, huse, Bool.false_eq_true, if_false]
    split
    · have hproj : evse_get_cp_duty_cycle
          { s with cp_invalid_counter := max 2 s.cp_invalid_counter,
                   pwm_raw := 64000 - duty * 64 } = (64000 - (64000 - duty * 64)) / 64 := rfl
      have h64 : 64000 - (64000 - duty * 64) = duty * 64 := by omega
      rw [hproj, h64]
      exact Nat.mul_div_cancel duty (by norm_num)
    · next h2 => omega

/-- Witness for C7: relay off, request 500 permille, applied 266. -/
theorem C7_cp_duty_clamp_witness :
    sys_c7w.relay = false ∧
    evse_get_cp_duty_cycle (evse_set_cp_duty_cycle sys_c7w 500) = 266 :=
  ⟨rfl, (C7_cp_duty_clamp sys_c7w 500 (by decide)).1 rfl (by decide) (by decide)⟩

/-! ### C2: effective ceiling of the slot arbitrator -/

lemma fold_step_le (t : SlotTable) (acc i : Nat) :
    charging_slot_fold_step t acc i ≤ acc := by
  unfold charging_slot_fold_step
  split
  · exact le_trans (Nat.mod_le _ _) (Nat.min_le_left _ _)
  · exact Nat.le_refl _

lemma fold_le (t : SlotTable) (l : List Nat) :
    ∀ acc, l.foldl (charging_slot_fold_step t) acc ≤ acc := by
  induction l with
  | nil => intro acc; exact Nat.le_refl _
  | cons j l ih =>
    intro acc
    exact le_trans (ih _) (fold_step_le t acc j)

lemma fold_le_elem (t : SlotTable) (l : List Nat) :
    ∀ acc i, i ∈ l → t.active i = true →
      l.foldl (charging_slot_fold_step t) acc ≤ t.max_current i := by
  induction l with
  | nil => intro acc i h; exact absurd h (List.not_mem_nil i)
  | cons j l ih =>
    intro acc i hmem hact
    simp only [List.foldl_cons]
    rcases List.mem_cons.mp hmem with heq | hmem2
    · subst heq
      refine le_trans (fold_le t l _) ?_
      unfold charging_slot_fold_step
      rw [if_pos hact]
      exact le_trans (Nat.mod_le _ _) (Nat.min_le_right _ _)
    · exact ih _ i hmem2 hact

lemma fold_no_active (t : SlotTable) (l : List Nat) :
    ∀ acc, (∀ i ∈ l, t.active i = false) →
      l.foldl (charging_slot_fold_step t) acc = acc := by
  induction l with
  | nil => intro acc _; rfl
  | cons j l ih =>
    intro acc hall
    simp only [List.foldl_cons]
    have hstep : charging_slot_fold_step t acc j = acc := by
      unfold charging_slot_fold_step
      rw [if_neg]
      simp [hall j (List.mem_cons_self j l)]
    rw [hstep]
    exact ih acc (fun i hi => hall i (List.mem_cons_of_mem j hi))

lemma fold_attained (t : SlotTable) (l : List Nat) :
    ∀ acc, acc ≤ 65535 →
      l.foldl (charging_slot_fold_step t) acc = acc ∨
      ∃ i ∈ l, t.active i = true ∧
        l.foldl (charging_slot_fold_step t) acc = t.max_current i := by
  induction l with
  | nil => intro acc _; exact Or.inl rfl
  | cons j l ih =>
    intro acc hacc
    simp only [List.foldl_cons]
    by_cases hj : t.active j = true
    · have hstep : charging_slot_fold_step t acc j = min acc (t.max_current j) := by
        unfold charging_slot_fold_step
        rw [if_pos hj]
        exact Nat.mod_eq_of_lt (lt_of_le_of_lt (le_trans (Nat.min_le_left _ _) hacc)
          (by norm_num))
      have hstep_le : charging_slot_fold_step t acc j ≤ 65535 :=
        le_trans (fold_step_le t acc j) hacc
      rcases ih (charging_slot_fold_step t acc j) hstep_le with heq | ⟨i, hi, hia, hieq⟩
      · rw [heq, hstep]
        rcases Nat.le_total acc (t.max_current j) with hle | hle
        · exact Or.inl (Nat.min_eq_left hle)
        · exact Or.inr ⟨j, List.mem_cons_self j l, hj, Nat.min_eq_right hle⟩
      · exact Or.inr ⟨i, List.mem_cons_of_mem j hi, hia, hieq⟩
    · have hstep : charging_slot_fold_step t acc j = acc := by
        unfold charging_slot_fold_step
        rw [if_neg hj]
      rw [hstep]
      rcases ih acc hacc with heq | ⟨i, hi, hia, hieq⟩
      · exact Or.inl heq
      · exact Or.inr ⟨i, List.mem_cons_of_mem j hi, hia, hieq⟩

/-- C2 counterexample: a single active slot holding the u32 value 65535
(every active slot holds 65535), yet the function returns 0, not the
minimum 65535: the uint16_t accumulator's 0xFFFF sentinel collides with
legitimate slot currents of 0xFFFF and above. -/
theorem C2_counterexample :
    charging_slot_get_max_current slot_table_cex = 0 ∧
    slot_table_cex.active 0 = true ∧
    (∀ i, i < CHARGING_SLOT_NUM → slot_table_cex.active i = true →
      slot_table_cex.max_current i = 65535) ∧
    (0 : Nat) ≠ 65535 := by
  refine ⟨by decide, by decide, by decide, by decide⟩

/-- C2 amended: whenever every active slot current is below the 0xFFFF
sentinel, `charging_slot_get_max_current` returns 0 when no slot is
active, and otherwise returns a true minimum over the active slots — a
lower bound that is attained by some active slot (hence independent of
the order in which slots were updated). -/
theorem C2_effective_ceiling (t : SlotTable)
    (h : ∀ i, i < CHARGING_SLOT_NUM → t.active i = true → t.max_current i < 65535) :
    ((∀ i, i < CHARGING_SLOT_NUM → t.active i = false) →
      charging_slot_get_max_current t = 0) ∧
    (∀ j, j < CHARGING_SLOT_NUM → t.active j = true →
      charging_slot_get_max_current t ≤ t.max_current j ∧
      ∃ i, i < CHARGING_SLOT_NUM ∧ t.active i = true ∧
        charging_slot_get_max_current t = t.max_current i) := by
  constructor
  · intro hall
    have hfold : (List.range CHARGING_SLOT_NUM).foldl (charging_slot_fold_step t) 65535
        = 65535 :=
      fold_no_active t _ 65535 (fun i hi => hall i (List.mem_range.mp hi))
    simp [charging_slot_get_max_current, hfold]
  · intro j hj hja
    have hmem : j ∈ List.range CHARGING_SLOT_NUM := List.mem_range.mpr hj
    have hle : (List.range CHARGING_SLOT_NUM).foldl (charging_slot_fold_step t) 65535
        ≤ t.max_current j :=
      fold_le_elem t _ 65535 j hmem hja
    have hlt : (List.range CHARGING_SLOT_NUM).foldl (charging_slot_fold_step t) 65535
        < 65535 :=
      lt_of_le_of_lt hle (h j hj hja)
    have hout : charging_slot_get_max_current t
        = (List.range CHARGING_SLOT_NUM).foldl (charging_slot_fold_step t) 65535 := by
      simp only [charging_slot_get_max_current]
      rw [if_neg (Nat.ne_of_lt hlt)]
    constructor
    · rw [hout]; exact hle
    · rcases fold_attained t (List.range CHARGING_SLOT_NUM) 65535 (Nat.le_refl _)
        with heq | ⟨i, hi, hia, hieq⟩
      · omega
      · exact ⟨i, List.mem_range.mp hi, hia, by rw [hout, hieq]⟩

/-- Witness for C2: a table with active slots 2 (32000 mA) and 5
(16000 mA); the returned ceiling is bounded by slot 5 and attained. -/
theorem C2_effective_ceiling_witness :
    (∀ i, i < CHARGING_SLOT_NUM → slot_table_wit.active i = true →
      slot_table_wit.max_current i < 65535) ∧
    (charging_slot_get_max_current slot_table_wit ≤ slot_table_wit.max_current 5 ∧
      ∃ i, i < CHARGING_SLOT_NUM ∧ slot_table_wit.active i = true ∧
        charging_slot_get_max_current slot_table_wit = slot_table_wit.max_current i) :=
  ⟨by decide, (C2_effective_ceiling slot_table_wit (by decide)).2 5 (by decide) (by decide)⟩

/-! ### C6: per-tick recomputation of the fixed physical slots -/

/-- C6 counterexample: with a 6 A jumper the incoming-cable lookup is
6000 mA, yet after `charging_slot_tick` on a table whose incoming-cable
slot holds 0 mA the slot still holds 0 mA: tick does not recompute the
incoming-cable slot. -/
theorem C6_counterexample :
    charging_slot_get_ma_incoming_cable env_c6 = 6000 ∧
    (charging_slot_tick env_c6 slot_table_c6).max_current CHARGING_SLOT_INCOMING_CABLE = 0 ∧
    (0 : Nat) ≠ 6000 := by
  refine ⟨by decide, by decide, by decide⟩

/-- C6 amended: every call of `charging_slot_tick` recomputes only the
outgoing-cable slot from the proximity-pilot classification; the
incoming-cable slot keeps its pre-state value, having been set from the
jumper/configuration lookup by `charging_slot_init`. -/
theorem C6_tick_recompute (env : Env) (t : SlotTable)
    (dm : Nat → Nat) (da dc : Nat → Bool) :
    (charging_slot_tick env t).max_current CHARGING_SLOT_OUTGOING_CABLE
      = iec61851_get_ma_from_pp_resistance env.pp_pe_resistance ∧
    (charging_slot_tick env t).max_current CHARGING_SLOT_INCOMING_CABLE
      = t.max_current CHARGING_SLOT_INCOMING_CABLE ∧
    (charging_slot_tick env t).active = t.active ∧
    (charging_slot_init env dm da dc t).max_current CHARGING_SLOT_INCOMING_CABLE
      = charging_slot_get_ma_incoming_cable env ∧
    (charging_slot_init env dm da dc t).max_current CHARGING_SLOT_OUTGOING_CABLE
      = iec61851_get_ma_from_pp_resistance env.pp_pe_resistance := by
  refine ⟨rfl, ?_, rfl, rfl, rfl⟩
  simp [charging_slot_tick, CHARGING_SLOT_INCOMING_CABLE, CHARGING_SLOT_OUTGOING_CABLE]

/-! ### C4: the measurement-invalid guard of the tick -/

/-- C4 counterexample: with the CP invalid counter nonzero but a
contactor-check fault present, the tick still evaluates: the state moves
from B to EF and the last-state-change timestamp changes, contradicting
the claim that a nonzero counter skips evaluation whatever the fault
input is. -/
theorem C4_counterexample :
    sys_c4.cp_invalid_counter = 1 ∧
    sys_c4.iec_state = IecState.B ∧
    (iec61851_tick env_c4 sys_c4).iec_state = IecState.EF ∧
    (iec61851_tick env_c4 sys_c4).last_state_change ≠ sys_c4.last_state_change := by
  refine ⟨by decide, by decide, by decide, by decide⟩

/-- C4 amended: when no contactor fault is reported, the jumper is
configured and the button latch is clear, a nonzero CP
measurement-invalid counter makes the tick return with the whole state
unchanged (no state change, no new actuation). -/
theorem C4_invalid_guard (env : Env) (s : Sys)
    (hf : env.contactor_check_error = 0)
    (hj : env.config_jumper_current ≠ JumperConfig.unconfigured)
    (hb : s.was_pressed = false)
    (hc : 0 < s.cp_invalid_counter) :
    iec61851_tick env s = s := by
  have hclass : iec61851_tick_classify env s = none := by
    unfold iec61851_tick_classify
    rw [if_neg (by simp [hf]), if_neg hj, if_neg (by simp [hb]), if_pos hc]
  exact tick_of_classify_none env s hclass

/-- Witness for C4: healthy environment, one blacked-out CP sample. -/
theorem C4_invalid_guard_witness :
    envBase.contactor_check_error = 0 ∧
    0 < sys_c4w.cp_invalid_counter ∧
    iec61851_tick envBase sys_c4w = sys_c4w :=
  ⟨by decide, by decide,
   C4_invalid_guard envBase sys_c4w rfl (by decide) rfl (by decide)⟩

/-! ### C1: switch-under-load deferral in evse_set_output -/

/-- C1: with the relay engaged, a request for contactor off at an idle
duty cycle (0 or 1000 permille) is deferred while the CP resistance is
at most the B threshold and less than 3000 ms have passed since the
deferral timestamp was recorded (first deferred call); once the
resistance exceeds the B threshold, or 3000 ms have elapsed since the
recorded deferral (regardless of resistance), the relay is switched off
and the deferral timestamp is cleared. -/
theorem C1_contactor_off_deferral (env : Env) (s : Sys) (duty : Nat)
    (hrelay : s.relay = true) (hduty : duty = 0 ∨ duty = 1000) :
    (env.cp_pe_resistance ≤ IEC61851_CP_RESISTANCE_STATE_B →
      s.contactor_turn_off_time = 0 →
      (evse_set_output env s duty false).relay = true ∧
      (evse_set_output env s duty false).contactor_turn_off_time = env.now) ∧
    (env.cp_pe_resistance ≤ IEC61851_CP_RESISTANCE_STATE_B →
      s.contactor_turn_off_time ≠ 0 →
      env.now < s.contactor_turn_off_time + 3000 →
      (evse_set_output env s duty false).relay = true ∧
      (evse_set_output env s duty false).contactor_turn_off_time
        = s.contactor_turn_off_time) ∧
    (IEC61851_CP_RESISTANCE_STATE_B < env.cp_pe_resistance →
      (evse_set_output env s duty false).relay = false ∧
      (evse_set_output env s duty false).contactor_turn_off_time = 0) ∧
    (s.contactor_turn_off_time ≠ 0 →
      s.contactor_turn_off_time + 3000 ≤ env.now →
      (evse_set_output env s duty false).relay = false ∧
      (evse_set_output env s duty false).contactor_turn_off_time = 0) := by
  have h1r : (evse_set_cp_duty_cycle s duty).relay = true := by
    rw [cpduty_relay, hrelay]
  have h1t : (evse_set_cp_duty_cycle s duty).contactor_turn_off_time
      = s.contactor_turn_off_time := cpduty_turn_off s duty
  simp only [evse_set_output]
  rw [if_pos (show (evse_set_cp_duty_cycle s duty).relay ≠ false by simp [h1r])]
  rw [if_pos (show (duty = 0 ∨ duty = 1000) ∧ True from ⟨hduty, trivial⟩)]
  refine ⟨fun hres ht0 => ?_, fun hres ht0 hlt => ?_, fun hres => ?_, fun ht0 hle => ?_⟩
  · rw [if_pos hres, if_pos (show (evse_set_cp_duty_cycle s duty).contactor_turn_off_time = 0
      by rw [h1t]; exact ht0)]
    exact ⟨by simp [h1r], rfl⟩
  · rw [if_pos hres,
       if_neg (show ¬(evse_set_cp_duty_cycle s duty).contactor_turn_off_time = 0
         by rw [h1t]; exact ht0),
       if_neg (show ¬(system_timer_is_time_elapsed_ms
           (evse_set_cp_duty_cycle s duty).contactor_turn_off_time 3000 env.now = true)
         by rw [h1t]; simp [system_timer_is_time_elapsed_ms]; omega)]
    exact ⟨h1r, h1t⟩
  · rw [if_neg (Nat.not_le.mpr hres)]
    exact ⟨by simp [evse_switch_contactor], by simp [evse_switch_contactor]⟩
  · by_cases hres : env.cp_pe_resistance ≤ IEC61851_CP_RESISTANCE_STATE_B
    · rw [if_pos hres,
         if_neg (show ¬(evse_set_cp_duty_cycle s duty).contactor_turn_off_time = 0
           by rw [h1t]; exact ht0),
         if_pos (show system_timer_is_time_elapsed_ms
             (evse_set_cp_duty_cycle s duty).contactor_turn_off_time 3000 env.now = true
           by rw [h1t]; simp [system_timer_is_time_elapsed_ms]; omega)]
      exact ⟨by simp [evse_switch_contactor], by simp [evse_switch_contactor]⟩
    · rw [if_neg hres]
      exact ⟨by simp [evse_switch_contactor], by simp [evse_switch_contactor]⟩

/-- Witness for C1: relay engaged, idle request, CP resistance 2000 ohm
(above the B threshold): switch performed, timestamp cleared. -/
theorem C1_contactor_off_deferral_witness :
    IEC61851_CP_RESISTANCE_STATE_B < env_c1w.cp_pe_resistance ∧
    (evse_set_output env_c1w sys_c1w 1000 false).relay = false ∧
    (evse_set_output env_c1w sys_c1w 1000 false).contactor_turn_off_time = 0 := by
  have h := (C1_contactor_off_deferral env_c1w sys_c1w 1000 (by decide)
    (Or.inr rfl)).2.2.1 (by decide)
  exact ⟨by decide, h.1, h.2⟩

/-! ### C5: ID.3 debounce of the A transition -/

/-- C5: in ID.3 mode (duty cycle not 1000, relay off) a CP resistance
above three times the A threshold does not move the state to A on the
tick that first observes it (it only records the observation time), nor
on any tick less than 500 ms after the recorded observation; a tick at
least 500 ms after the recorded observation does move the state to A.
Outside ID.3 mode a single reading above the A threshold moves the
state to A immediately. (Guards: no calibration, no fault, jumper
configured, button latch clear, measurements valid.) -/
theorem C5_id3_debounce (env : Env) (s : Sys)
    (hcal : env.calibration_state = 0)
    (hf : env.contactor_check_error = 0)
    (hj : env.config_jumper_current ≠ JumperConfig.unconfigured)
    (hb : s.was_pressed = false)
    (hc : s.cp_invalid_counter = 0) :
    (id3_mode s = true →
      IEC61851_CP_RESISTANCE_STATE_A * 3 < env.cp_pe_resistance →
      ((s.id3_mode_time = 0 →
        (iec61851_tick env s).iec_state = s.iec_state ∧
        (iec61851_tick env s).id3_mode_time = env.now) ∧
      (s.id3_mode_time ≠ 0 → env.now < s.id3_mode_time + 500 →
        (iec61851_tick env s).iec_state = s.iec_state) ∧
      (s.id3_mode_time ≠ 0 → s.id3_mode_time + 500 ≤ env.now →
        (iec61851_tick env s).iec_state = IecState.A))) ∧
    (id3_mode s = false →
      IEC61851_CP_RESISTANCE_STATE_A < env.cp_pe_resistance →
      (iec61851_tick env s).iec_state = IecState.A) := by
  have hg1 : ¬(env.contactor_check_error ≠ 0) := by simp [hf]
  have hg3 : ¬(s.was_pressed = true) := by simp [hb]
  have hg4 : ¬(0 < s.cp_invalid_counter) := by omega
  constructor
  · intro hid3 hres
    have hid3r : iec61851_id3_reset s = s := id3_reset_of_true s hid3
    have hcond : (id3_mode s = true ∧
        IEC61851_CP_RESISTANCE_STATE_A * 3 < env.cp_pe_resistance) := ⟨hid3, hres⟩
    refine ⟨fun ht0 => ?_, fun ht0 hlt => ?_, fun ht0 hge => ?_⟩
    · have hclass : iec61851_tick_classify env s
          = some { s with id3_mode_time := env.now } := by
        unfold iec61851_tick_classify
        rw [if_neg hg1, if_neg hj, if_neg hg3, if_neg hg4, if_pos hcond, hid3r,
            if_pos ht0]
      rw [tick_of_classify_some env s _ hcal hclass]
      exact ⟨by rw [actuate_iec_state], by rw [actuate_id3_time]⟩
    · have hclass : iec61851_tick_classify env s = some s := by
        unfold iec61851_tick_classify
        rw [if_neg hg1, if_neg hj, if_neg hg3, if_neg hg4, if_pos hcond, hid3r,
            if_neg ht0,
            if_neg (show ¬(system_timer_is_time_elapsed_ms s.id3_mode_time 500 env.now
                = true)
              by simp [system_timer_is_time_elapsed_ms]; omega)]
      rw [tick_of_classify_some env s s hcal hclass, actuate_iec_state]
    · have hclass : iec61851_tick_classify env s
          = some (iec61851_set_state env s IecState.A) := by
        unfold iec61851_tick_classify
        rw [if_neg hg1, if_neg hj, if_neg hg3, if_neg hg4, if_pos hcond, hid3r,
            if_neg ht0,
            if_pos (show system_timer_is_time_elapsed_ms s.id3_mode_time 500 env.now
                = true
              by simp [system_timer_is_time_elapsed_ms]; omega)]
      rw [tick_of_classify_some env s _ hcal hclass, actuate_iec_state,
          set_state_iec_state]
  · intro hid3 hres
    have hn1 : ¬(id3_mode s = true ∧
        IEC61851_CP_RESISTANCE_STATE_A * 3 < env.cp_pe_resistance) := by
      rintro ⟨hx, -⟩
      rw [hid3] at hx
      exact Bool.false_ne_true hx
    have hcond2 : (¬(id3_mode s = true) ∧
        IEC61851_CP_RESISTANCE_STATE_A < env.cp_pe_resistance) :=
      ⟨by simp [hid3], hres⟩
    have hclass : iec61851_tick_classify env s
        = some (iec61851_set_state env (iec61851_id3_reset s) IecState.A) := by
      unfold iec61851_tick_classify
      rw [if_neg hg1, if_neg hj, if_neg hg3, if_neg hg4, if_neg hn1, if_pos hcond2]
    rw [tick_of_classify_some env s _ hcal hclass, actuate_iec_state,
        set_state_iec_state]

/-- Witness for C5: spike first observed at t = 100 ms, tick at
t = 700 ms (600 ms later): the state moves to A. -/
theorem C5_id3_debounce_witness :
    sys_c5w.id3_mode_time ≠ 0 ∧
    sys_c5w.id3_mode_time + 500 ≤ env_c5w.now ∧
    (iec61851_tick env_c5w sys_c5w).iec_state = IecState.A :=
  ⟨by decide, by decide,
   ((C5_id3_debounce env_c5w sys_c5w (by decide) (by decide) (by decide) (by decide)
      (by decide)).1 (by decide) (by decide)).2.2 (by decide) (by decide)⟩

/-! ### C10: the intermediate band above the A threshold in ID.3 mode -/

/-- C10: in ID.3 mode, a single CP resistance reading strictly above the
A threshold but at most three times the A threshold does not set state A
on that tick; the classification falls through to the B branch and the
state machine sets state B. (Guards: no calibration, no fault, jumper
configured, button latch clear, measurements valid.) -/
theorem C10_id3_intermediate_band (env : Env) (s : Sys)
    (hcal : env.calibration_state = 0)
    (hf : env.contactor_check_error = 0)
    (hj : env.config_jumper_current ≠ JumperConfig.unconfigured)
    (hb : s.was_pressed = false)
    (hc : s.cp_invalid_counter = 0)
    (hid3 : id3_mode s = true)
    (h1 : IEC61851_CP_RESISTANCE_STATE_A < env.cp_pe_resistance)
    (h2 : env.cp_pe_resistance ≤ IEC61851_CP_RESISTANCE_STATE_A * 3) :
    (iec61851_tick env s).iec_state = IecState.B := by
  have hg1 : ¬(env.contactor_check_error ≠ 0) := by simp [hf]
  have hg3 : ¬(s.was_pressed = true) := by simp [hb]
  have hg4 : ¬(0 < s.cp_invalid_counter) := by omega
  have hn1 : ¬(id3_mode s = true ∧
      IEC61851_CP_RESISTANCE_STATE_A * 3 < env.cp_pe_resistance) := by
    rintro ⟨-, hx⟩
    omega
  have hn2 : ¬(¬(id3_mode s = true) ∧
      IEC61851_CP_RESISTANCE_STATE_A < env.cp_pe_resistance) := by
    rintro ⟨hx, -⟩
    exact hx hid3
  have hAB : IEC61851_CP_RESISTANCE_STATE_B < IEC61851_CP_RESISTANCE_STATE_A := by
    decide
  have h3 : IEC61851_CP_RESISTANCE_STATE_B < env.cp_pe_resistance := by omega
  have hclass : iec61851_tick_classify env s
      = some (iec61851_set_state env (iec61851_id3_reset s) IecState.B) := by
    unfold iec61851_tick_classify
    rw [if_neg hg1, if_neg hj, if_neg hg3, if_neg hg4, if_neg hn1, if_neg hn2,
        if_pos h3]
  rw [tick_of_classify_some env s _ hcal hclass, actuate_iec_state,
      set_state_iec_state]

/-- Witness for C10: ID.3 mode with CP resistance 20000 ohm yields
state B on that tick. -/
theorem C10_id3_intermediate_band_witness :
    id3_mode sys_c10w = true ∧
    IEC61851_CP_RESISTANCE_STATE_A < env_c10w.cp_pe_resistance ∧
    (iec61851_tick env_c10w sys_c10w).iec_state = IecState.B :=
  ⟨by decide, by decide,
   C10_id3_intermediate_band env_c10w sys_c10w (by decide) (by decide) (by decide)
     (by decide) (by decide) (by decide) (by decide) (by decide)⟩

/-! ### C9: end-to-end scenario 1 -/

/-- C9 counterexample: in the spec's scenario (limits 32000/20000/32000,
CP resistance 2000 ohm) the state is B and the ceiling is 20000 mA, but
the requested duty cycle is 20000 / 60 = 333 permille, not 334. -/
theorem C9_counterexample :
    (iec61851_tick env_c9 sys_c9).iec_state = IecState.B ∧
    iec61851_get_max_ma env_c9 sys_c9 = 20000 ∧
    iec61851_get_duty_cycle_for_ma (iec61851_get_max_ma env_c9 sys_c9) = 333 ∧
    (333 : Nat) ≠ 334 := by
  refine ⟨by decide, by decide, by decide, by decide⟩

/-- C9 amended: with incoming 32000, outgoing 20000 and button 32000 mA
all active, CP resistance 2000 ohm yields state B, an effective current
ceiling of 20000 mA (both through the slot arbitrator and through
`iec61851_get_max_ma`), a requested pilot duty cycle of 333 permille,
and the contactor off. -/
theorem C9_scenario_1 :
    charging_slot_get_max_current slot_table_c9 = 20000 ∧
    iec61851_get_max_ma env_c9 sys_c9 = 20000 ∧
    iec61851_get_duty_cycle_for_ma 20000 = 333 ∧
    (iec61851_tick env_c9 sys_c9).iec_state = IecState.B ∧
    (iec61851_tick env_c9 sys_c9).relay = false := by
  refine ⟨by decide, by decide, by decide, by decide, by decide⟩
